import Mathlib

/-!
Verification of the SpendSense behavioral-signal / persona / recommendation
pipeline, shallowly embedded from the repository source.

Conventions used throughout:
* JavaScript numbers that carry money or ratios are modelled as rationals.
* A possibly-`undefined` field is an `Option`.
* The JavaScript `x || d` idiom (used pervasively in the source as a default
  operator) is modelled by `jsOrQ` / `jsOrStr`: the default is taken both when
  the value is absent and when it is falsy (`0` for numbers, the empty string
  for strings).
-/

namespace SpendSense

/-- JS `x || d` for numeric values: `undefined` and `0` are falsy. -/
def jsOrQ (x : Option ℚ) (d : ℚ) : ℚ :=
  match x with
  | some v => if v = 0 then d else v
  | none => d

/-- JS `x || d` for string values: `undefined` and `""` are falsy. -/
def jsOrStr (x : Option String) (d : String) : String :=
  match x with
  | some s => if s = "" then d else s
  | none => d

/-! ## Credit accounts in `BalanceTransferModule.loadData`
From `src/consumer_ui/src/components/education/BalanceTransferModule.tsx`. -/

/-- One entry of `creditSignal.accounts` (per-account credit signal data). -/
structure SignalAccount where
  account_id : String
  utilization : Option ℚ
  interest_charged : Option ℚ
  deriving DecidableEq

/-- The `credit_utilization` signal as consumed by the module. -/
structure CreditSignal where
  accounts : Option (List SignalAccount)
  interest_charged : Option ℚ
  deriving DecidableEq

/-- A credit account from `overview.data.accounts.credit`. -/
structure OverviewCreditAccount where
  account_id : String
  mask : Option String
  balance : ℚ
  limit : Option ℚ
  deriving DecidableEq

/-- The record built for each account by `loadData` (`accountsWithSignals`). -/
structure CreditAccountView where
  account_id : String
  account_mask : String
  balance : ℚ
  credit_limit : ℚ
  utilization : ℚ
  interest_charged : ℚ
  deriving DecidableEq

/-- `creditSignal?.accounts?.find(a => a.account_id === acc.account_id)`. -/
def findSignalAccount (cs : Option CreditSignal) (aid : String) : Option SignalAccount :=
  (cs.bind CreditSignal.accounts).bind fun l => l.find? fun a => a.account_id = aid

/-- `acc.mask || acc.account_id.slice(-4)`. -/
def maskOf (acc : OverviewCreditAccount) : String :=
  jsOrStr acc.mask (String.mk ((acc.account_id.toList.reverse.take 4).reverse))

/-- The mapping applied to each credit account in `loadData`:
`utilization: signalAccount?.utilization || (acc.balance / (acc.limit || 1))`,
`credit_limit: acc.limit || 0`, `interest_charged: signalAccount?.interest_charged || 0`. -/
def creditAccountView (cs : Option CreditSignal) (acc : OverviewCreditAccount) :
    CreditAccountView :=
  let signalAccount := findSignalAccount cs acc.account_id
  { account_id := acc.account_id
    account_mask := maskOf acc
    balance := acc.balance
    credit_limit := jsOrQ acc.limit 0
    utilization :=
      jsOrQ (signalAccount.bind SignalAccount.utilization)
        (acc.balance / jsOrQ acc.limit 1)
    interest_charged := jsOrQ (signalAccount.bind SignalAccount.interest_charged) 0 }

/-- `creditAccountsData.map(acc => ...)` — every account is mapped, none filtered. -/
def accountsWithSignals (accs : List OverviewCreditAccount) (cs : Option CreditSignal) :
    List CreditAccountView :=
  accs.map (creditAccountView cs)

/-! ## Utilization flags
Badge in `BalanceTransferModule` (step 0):
`account.utilization > 0.5 ? "destructive" : account.utilization > 0.3 ? "default" : "secondary"`
(`destructive` renders the high flag, `default` the medium flag, `secondary` the low flag).
Utilization text color in `overview.tsx` `AccountCard`:
`account.utilization >= 80 ? "text-trust-error" : account.utilization >= 50 ? "text-trust-warning" : "text-trust-success"`. -/

/-- Badge variant computed from an account utilization in `BalanceTransferModule`. -/
def badgeVariant (u : ℚ) : String :=
  if u > 1/2 then "destructive" else if u > 3/10 then "default" else "secondary"

/-- Utilization text style in the overview `AccountCard`. -/
def overviewUtilizationStyle (u : ℚ) : String :=
  if u ≥ 80 then "text-trust-error"
  else if u ≥ 50 then "text-trust-warning"
  else "text-trust-success"

/-! ## Savings-goal timeline
From `calculateTimelineFromWeekly` in
`src/consumer_ui/src/components/education/SavingsGoalModule.tsx`. -/

/-- Result record of the timeline calculation (`SavingsGoalCalculation`). -/
structure SavingsGoalCalculation where
  months_needed : Option ℤ
  years_needed : Option ℚ
  amount_needed : ℚ
  is_achievable : Bool
  deriving DecidableEq

/-- `calculateTimelineFromWeekly(weeklyAmount)`: `goalAmount` is the (possibly
empty, hence `Option`) goal input, `currentSavings` the loaded savings balance.
Weekly amounts are converted at 4.33 weeks per month and the month count is
`Math.ceil(amountNeeded / monthlyFromWeekly)`. -/
def calculateTimelineFromWeekly (goalAmount : Option ℚ) (currentSavings weeklyAmount : ℚ) :
    SavingsGoalCalculation :=
  match goalAmount with
  | none => { months_needed := none, years_needed := none, amount_needed := 0,
              is_achievable := false }
  | some goal =>
    if currentSavings ≥ goal then
      { months_needed := some 0, years_needed := some 0, amount_needed := 0,
        is_achievable := true }
    else if weeklyAmount ≤ 0 then
      { months_needed := none, years_needed := none,
        amount_needed := goal - currentSavings, is_achievable := false }
    else
      let monthlyFromWeekly := weeklyAmount * (433/100)
      let amountNeeded := goal - currentSavings
      let monthsNeeded : ℤ := ⌈amountNeeded / monthlyFromWeekly⌉
      { months_needed := some monthsNeeded,
        years_needed := some ((monthsNeeded : ℚ) / 12),
        amount_needed := amountNeeded, is_achievable := true }

/-! ## Subscription selection toggle
From `toggleSubscription` in the `SubscriptionModule` (`src/unnamed/part_013`):
`prev.includes(index) ? prev.filter(i => i !== index) : [...prev, index]`. -/

/-- The updater passed to `setSelectedIndices` by `toggleSubscription(index)`. -/
def toggleSubscription (prev : List ℕ) (index : ℕ) : List ℕ :=
  if index ∈ prev then prev.filter (fun i => i ≠ index) else prev ++ [index]

/-! ## Persona detection in `PersonaModuleRouter.loadPersona`
From `src/unnamed/part_014`. -/

/-- One persona assignment record as read from `user.personas[window]`. -/
structure PersonaData where
  primary_persona : Option String
  persona : Option String
  match_percentages : Option (List (String × ℚ))
  deriving DecidableEq

/-- `user.personas`, holding the `30d` and `180d` windows. -/
structure UserPersonas where
  d30 : Option PersonaData
  d180 : Option PersonaData
  deriving DecidableEq

/-- The user record as consumed by `loadPersona` (only `personas` is read). -/
structure UserData where
  personas : Option UserPersonas
  deriving DecidableEq

/-- JS string truthiness test: `undefined` and `""` are falsy. -/
def jsStrOpt (x : Option String) : Option String :=
  match x with
  | some s => if s = "" then none else some s
  | none => none

/-- `Object.entries(matches).sort((a, b) => b[1] - a[1])[0]`: the stable
descending sort puts the first entry of maximal value at the head. -/
def maxEntry (l : List (String × ℚ)) : Option (String × ℚ) :=
  l.foldl (fun acc e =>
    match acc with
    | none => some e
    | some a => if e.2 > a.2 then some e else some a) none

/-- The cascade inside `loadPersona` that extracts a persona name from one
window record: `primary_persona`, then `persona`, then the highest positive
`match_percentages` entry. -/
def personaFromData (pd : PersonaData) : Option String :=
  match jsStrOpt pd.primary_persona with
  | some p => some p
  | none =>
    match jsStrOpt pd.persona with
    | some p => some p
    | none =>
      match pd.match_percentages with
      | some mp =>
        match maxEntry mp with
        | some e => if e.2 > 0 then some e.1 else none
        | none => none
      | none => none

/-- `detectedPersona` at the end of the happy path of `loadPersona`:
`personaData = personas['30d'] || personas['180d']` (objects are truthy),
then `personaFromData`. -/
def detectPersona (u : UserData) : Option String :=
  match u.personas with
  | none => none
  | some ps =>
    match ps.d30 with
    | some pd => personaFromData pd
    | none =>
      match ps.d180 with
      | some pd => personaFromData pd
      | none => none

/-- `const finalPersona = detectedPersona || "general_wellness"`. -/
def finalPersona (u : UserData) : String :=
  jsOrStr (detectPersona u) "general_wellness"

/-- `loadPersona` as a function of the fetch outcome: on a fetch error the
catch block sets the persona to `general_wellness`; otherwise the detection
cascade runs with its `general_wellness` fallback. -/
def loadPersonaResult (r : Except String UserData) : String :=
  match r with
  | .error _ => "general_wellness"
  | .ok u => finalPersona u

/-! ## Persona classifier
The classifier itself lives in the backend (`spendsense/engine.py`,
`signal_detection.py` per the repository README) and is not among the source
files; it is modelled from the spec, section 4.2. -/

/-- The five mutually exclusive personas. -/
inductive Persona where
  | high_utilization
  | subscription_heavy
  | variable_income
  | savings_builder
  | general_wellness
  deriving DecidableEq

/-- Modelled from the spec: the signal set for one time window as consumed by
the persona classifier (the signal-detection backend is not under `src/`).
Fields carry exactly the quantities the four rule predicates read. -/
structure SignalSet where
  card_utilizations : List ℚ
  interest_charged : ℚ
  minimum_payment_only : Bool
  is_overdue : Bool
  recurring_merchants : ℕ
  monthly_recurring : ℚ
  subscription_share : ℚ
  median_pay_gap : Option ℚ
  irregular_frequency : Bool
  cash_flow_buffer : ℚ
  growth_rate : ℚ
  net_inflow : ℚ
  deriving DecidableEq

/-- Modelled from the spec: rule 1, High Utilization — any card utilization
at least 0.50, or interest charged positive, or minimum payments only, or
overdue. -/
def highUtilizationCriteria (s : SignalSet) : Bool :=
  s.card_utilizations.any (fun u => u ≥ 1/2) || s.interest_charged > 0 ||
    s.minimum_payment_only || s.is_overdue

/-- Modelled from the spec: rule 2, Subscription-Heavy — at least 3 recurring
merchants and (monthly recurring at least 50 or subscription share at least
0.10). -/
def subscriptionHeavyCriteria (s : SignalSet) : Bool :=
  s.recurring_merchants ≥ 3 &&
    (s.monthly_recurring ≥ 50 || s.subscription_share ≥ 1/10)

/-- Modelled from the spec: rule 3, Variable Income — (median pay gap over 45
days or irregular frequency) and cash flow buffer below 1.0. -/
def variableIncomeCriteria (s : SignalSet) : Bool :=
  ((match s.median_pay_gap with
    | some g => decide (g > 45)
    | none => false) || s.irregular_frequency) && s.cash_flow_buffer < 1

/-- Modelled from the spec: rule 4, Savings Builder — (growth rate at least
0.02 or net inflow at least 200) and every card utilization below 0.30. -/
def savingsBuilderCriteria (s : SignalSet) : Bool :=
  (s.growth_rate ≥ 2/100 || s.net_inflow ≥ 200) &&
    s.card_utilizations.all (fun u => u < 3/10)

/-- One row of the ordered rule table. -/
structure Rule where
  persona : Persona
  criteria : String
  pred : SignalSet → Bool

/-- Modelled from the spec: the rule table in priority order, highest first. -/
def ruleTable : List Rule :=
  [⟨Persona.high_utilization, "high utilization criteria", highUtilizationCriteria⟩,
   ⟨Persona.subscription_heavy, "subscription heavy criteria", subscriptionHeavyCriteria⟩,
   ⟨Persona.variable_income, "variable income criteria", variableIncomeCriteria⟩,
   ⟨Persona.savings_builder, "savings builder criteria", savingsBuilderCriteria⟩]

/-- Modelled from the spec: `classify(signals)` — the first rule whose
predicate is true wins, no scoring, no partial credit; General Wellness is the
default when no rule matches. Returns the persona and `criteria_met`. -/
def classify (s : SignalSet) : Persona × List String :=
  match ruleTable.find? (fun r => r.pred s) with
  | some r => (r.persona, [r.criteria])
  | none => (Persona.general_wellness, [])

/-! ## Subscriptions signal display
From `loadData` in the `SubscriptionModule` (`src/unnamed/part_013`). -/

/-- One merchant entry of the subscriptions signal. -/
structure SubMerchant where
  merchant : Option String
  amount : Option ℚ
  monthly_equivalent : Option ℚ
  frequency : Option String
  deriving DecidableEq

/-- The `Subscription` record built by `loadData` for display. -/
structure UISubscription where
  merchant : String
  amount : ℚ
  monthly_equivalent : ℚ
  frequency : String
  deriving DecidableEq

/-- The subscriptions signal as consumed by the module. -/
structure SubscriptionsSignal where
  merchant_details : Option (List SubMerchant)
  recurring_merchants : Option (List SubMerchant)
  monthly_recurring : Option ℚ
  deriving DecidableEq

/-- The per-merchant mapping in `loadData`:
`monthly_equivalent: m.monthly_equivalent || m.amount || 0`, etc. -/
def toUISubscription (m : SubMerchant) : UISubscription :=
  { merchant := jsOrStr m.merchant "Unknown"
    amount := jsOrQ m.amount 0
    monthly_equivalent := jsOrQ m.monthly_equivalent (jsOrQ m.amount 0)
    frequency := jsOrStr m.frequency "monthly" }

/-- `merchant_details || recurring_merchants || []`; a present array is truthy
even when empty. -/
def merchantData (sig : SubscriptionsSignal) : List SubMerchant :=
  match sig.merchant_details with
  | some l => l
  | none =>
    match sig.recurring_merchants with
    | some l => l
    | none => []

/-- The `subscriptions` state after `loadData` (set only when the merchant
list is non-empty). -/
def loadedSubscriptions (sig : SubscriptionsSignal) : List UISubscription :=
  if (merchantData sig).length > 0 then (merchantData sig).map toUISubscription else []

/-- The `totalMonthly` state after `loadData`:
`subscriptionSignal.monthly_recurring || 0`, set only when the merchant list
is non-empty. -/
def loadedTotalMonthly (sig : SubscriptionsSignal) : ℚ :=
  if (merchantData sig).length > 0 then jsOrQ sig.monthly_recurring 0 else 0

/-- Sum of the monthly-equivalent amounts of a displayed subscription list. -/
def sumMonthlyEquivalent (l : List UISubscription) : ℚ :=
  (l.map (fun s => s.monthly_equivalent)).sum

/-- Modelled from the spec: the subscription detector (backend
`signal_detection.py`, not under `src/`) emits `monthly_recurring` equal to
the sum of the monthly-equivalent amounts of the listed recurring merchants,
a merchant's monthly equivalent defaulting to its amount when absent. -/
def detectorEmitsSum (sig : SubscriptionsSignal) : Prop :=
  sig.monthly_recurring = some (sumMonthlyEquivalent (loadedSubscriptions sig))

/-! ## Guardrail validation
The guardrail validator lives in the backend (`spendsense/engine.py`, not
under `src/`); it is modelled from the spec, sections 4.5 and 7. -/

/-- `pre` is a prefix of `l`. -/
def prefixOf : List Char → List Char → Bool
  | [], _ => true
  | _ :: _, [] => false
  | a :: as, b :: bs => a = b && prefixOf as bs

/-- `p` occurs as a contiguous substring of `l`. -/
def substrOf (p : List Char) : List Char → Bool
  | [] => prefixOf p []
  | b :: bs => prefixOf p (b :: bs) || substrOf p bs

/-- Modelled from the spec: a ranked recommendation candidate at the
guardrail stage, carrying its rendered rationale and the outcome of the
eligibility re-check. -/
structure Candidate where
  content_id : String
  rationale : String
  eligible : Bool
  deriving DecidableEq

/-- Modelled from the spec: the tone check — the rendered rationale matches
some entry of the prohibited-phrase list. -/
def violatesTone (prohibited : List String) (text : String) : Bool :=
  prohibited.any (fun p => substrOf p.toList text.toList)

/-- Modelled from the spec: slot selection under guardrails — a failing
candidate is discarded and the next-ranked alternative is tried; if none
remain the slot is omitted (`none`). -/
def selectSlot (prohibited : List String) (cands : List Candidate) : Option Candidate :=
  cands.find? (fun c => !violatesTone prohibited c.rationale && c.eligible)

/-! ## Theorems -/

/-- C1 counterexample: a credit account with balance 500 and a missing limit is
not skipped by `loadData` — it is mapped to a view whose utilization is the
computed value `500 / 1 = 500`, refuting that such an account is left without
a computed utilization. -/
theorem c1_counterexample :
    (accountsWithSignals [⟨"acc-1", none, 500, none⟩] none).length = 1 ∧
    (accountsWithSignals [⟨"acc-1", none, 500, none⟩] none).map
      CreditAccountView.utilization = [500] := by
  constructor
  · rfl
  · simp [accountsWithSignals, creditAccountView, findSignalAccount, jsOrQ]

/-- C1 (amended): `loadData` maps every credit account (none is skipped); the
displayed utilization is the credit signal's utilization when that is present
and nonzero; otherwise it is `balance / limit` for a nonzero limit, and
`balance / 1 = balance` when the limit is zero or missing. -/
theorem c1_amended (cs : Option CreditSignal) (acc : OverviewCreditAccount) :
    (∀ v : ℚ,
      (findSignalAccount cs acc.account_id).bind SignalAccount.utilization = some v →
      v ≠ 0 → (creditAccountView cs acc).utilization = v) ∧
    (∀ L : ℚ,
      ((findSignalAccount cs acc.account_id).bind SignalAccount.utilization = none ∨
        (findSignalAccount cs acc.account_id).bind SignalAccount.utilization = some 0) →
      acc.limit = some L → L ≠ 0 →
      (creditAccountView cs acc).utilization = acc.balance / L) ∧
    (((findSignalAccount cs acc.account_id).bind SignalAccount.utilization = none ∨
        (findSignalAccount cs acc.account_id).bind SignalAccount.utilization = some 0) →
      (acc.limit = none ∨ acc.limit = some 0) →
      (creditAccountView cs acc).utilization = acc.balance) ∧
    (∀ accs : List OverviewCreditAccount,
      (accountsWithSignals accs cs).length = accs.length) := by
  refine ⟨?_, ?_, ?_, ?_⟩
  · intro v hv h0
    simp [creditAccountView, jsOrQ, hv, h0]
  · intro L hsig hL h0
    rcases hsig with h | h <;> simp [creditAccountView, jsOrQ, h, hL, h0]
  · intro hsig hlim
    rcases hsig with h | h <;> rcases hlim with hl | hl <;>
      simp [creditAccountView, jsOrQ, h, hl]
  · intro accs
    simp [accountsWithSignals]

/-- C1 witness: the 0.68-utilization signal account takes precedence over the
local computation, and a concrete account with limit 1000 and no signal gets
the fallback utilization `300 / 1000`. -/
theorem c1_witness :
    (creditAccountView (some ⟨some [⟨"a", some (17/25), none⟩], none⟩)
      ⟨"a", none, 3400, some 5000⟩).utilization = 17/25 ∧
    (creditAccountView none ⟨"b", none, 300, some 1000⟩).utilization = 300 / 1000 :=
  ⟨(c1_amended (some ⟨some [⟨"a", some (17/25), none⟩], none⟩)
      ⟨"a", none, 3400, some 5000⟩).1 (17/25) rfl (by norm_num),
   (c1_amended none ⟨"b", none, 300, some 1000⟩).2.1 1000 (Or.inl rfl) rfl (by norm_num)⟩

/-- C2 counterexample: at utilization exactly 0.50 the balance-transfer badge
is `default` (the medium flag), not `destructive` (the high flag), although
the claim requires the high flag at `>= 0.50`; and in the overview account
card the 0.68-utilization example account is styled `text-trust-success` (the
low style), not flagged high. -/
theorem c2_counterexample :
    ((1 : ℚ)/2 ≥ 1/2 ∧ badgeVariant (1/2) = "default" ∧
      badgeVariant (1/2) ≠ "destructive") ∧
    ((3400 : ℚ)/5000 ≥ 1/2 ∧
      overviewUtilizationStyle (3400/5000) = "text-trust-success") := by
  refine ⟨⟨le_refl _, ?_, ?_⟩, ⟨by norm_num, ?_⟩⟩
  · norm_num [badgeVariant]
  · norm_num [badgeVariant]
    decide
  · rw [overviewUtilizationStyle]
    rw [if_neg (by norm_num), if_neg (by norm_num)]

/-- C2 (amended): in `BalanceTransferModule` the badge flags high exactly when
utilization is strictly above 0.50, medium when it is in (0.30, 0.50], low
when it is at most 0.30; the 0.68 example is flagged high there. The overview
`AccountCard` instead styles by comparing the fractional utilization against
50 and 80, so the same 0.68 account receives the success (low) style. -/
theorem c2_theorem (u : ℚ) :
    (badgeVariant u = "destructive" ↔ 1/2 < u) ∧
    (badgeVariant u = "default" ↔ 3/10 < u ∧ u ≤ 1/2) ∧
    (badgeVariant u = "secondary" ↔ u ≤ 3/10) ∧
    badgeVariant (3400/5000) = "destructive" ∧
    (overviewUtilizationStyle u = "text-trust-error" ↔ 80 ≤ u) ∧
    (overviewUtilizationStyle u = "text-trust-warning" ↔ 50 ≤ u ∧ u < 80) ∧
    (overviewUtilizationStyle u = "text-trust-success" ↔ u < 50) := by
  refine ⟨?_, ?_, ?_, ?_, ?_, ?_, ?_⟩
  · unfold badgeVariant; split_ifs with h1 h2 <;> simp_all
  · unfold badgeVariant; split_ifs with h1 h2 <;> simp_all
  · unfold badgeVariant; split_ifs with h1 h2 <;> simp_all
    linarith
  · rw [badgeVariant, if_pos (by norm_num)]
  · unfold overviewUtilizationStyle; split_ifs with h1 h2 <;> simp_all
  · unfold overviewUtilizationStyle; split_ifs with h1 h2 <;> simp_all
  · unfold overviewUtilizationStyle; split_ifs with h1 h2 <;> simp_all
    linarith

/-- C3: whenever the High-Utilization criteria hold, the classifier assigns
`high_utilization`, regardless of whether any lower-priority predicate also
holds: the high-utilization rule is first in the ordered table and the first
matching rule wins. -/
theorem c3_theorem (s : SignalSet) (h : highUtilizationCriteria s = true) :
    (classify s).1 = Persona.high_utilization := by
  have hfind : List.find? (fun r => r.pred s) ruleTable =
      some ⟨Persona.high_utilization, "high utilization criteria",
        highUtilizationCriteria⟩ := by
    unfold ruleTable
    exact List.find?_cons_of_pos _ h
  unfold classify
  rw [hfind]

/-- C3 witness: a signal set satisfying both the High-Utilization criteria and
the lower-priority Subscription-Heavy criteria is still classified
`high_utilization`. -/
theorem c3_witness :
    highUtilizationCriteria ⟨[3/5], 0, false, false, 5, 100, 0, none, false, 2, 0, 0⟩ = true ∧
    subscriptionHeavyCriteria ⟨[3/5], 0, false, false, 5, 100, 0, none, false, 2, 0, 0⟩ = true ∧
    (classify ⟨[3/5], 0, false, false, 5, 100, 0, none, false, 2, 0, 0⟩).1 =
      Persona.high_utilization :=
  ⟨by simp [highUtilizationCriteria]; norm_num,
   by simp [subscriptionHeavyCriteria]; norm_num,
   c3_theorem _ (by simp [highUtilizationCriteria]; norm_num)⟩

/-- C4: persona determination is deterministic — two runs on identical inputs
produce identical personas and `criteria_met`: both the classifier and the
router-side detection are pure functions of their input. -/
theorem c4_theorem (s t : SignalSet) (h1 : s = t) (u v : UserData) (h2 : u = v) :
    classify s = classify t ∧
    loadPersonaResult (Except.ok u) = loadPersonaResult (Except.ok v) := by
  subst h1
  subst h2
  exact ⟨rfl, rfl⟩

/-- C4 witness at a concrete signal set and user record. -/
theorem c4_witness :
    classify ⟨[3/5], 0, false, false, 5, 100, 0, none, false, 2, 0, 0⟩ =
      classify ⟨[3/5], 0, false, false, 5, 100, 0, none, false, 2, 0, 0⟩ ∧
    loadPersonaResult (Except.ok ⟨none⟩) = loadPersonaResult (Except.ok ⟨none⟩) :=
  c4_theorem _ _ rfl _ _ rfl

/-- C5: when no persona is detected from the user data, and likewise when the
persona data fails to load, the persona used downstream is
`general_wellness`, never an absent one. -/
theorem c5_theorem (u : UserData) (h : detectPersona u = none) :
    loadPersonaResult (Except.ok u) = "general_wellness" ∧
    ∀ e : String, loadPersonaResult (Except.error e) = "general_wellness" := by
  constructor
  · simp [loadPersonaResult, finalPersona, jsOrStr, h]
  · intro e
    rfl

/-- C5 witness: a user record with no personas object falls back to
`general_wellness`. -/
theorem c5_witness :
    loadPersonaResult (Except.ok ⟨none⟩) = "general_wellness" ∧
    ∀ e : String, loadPersonaResult (Except.error e) = "general_wellness" :=
  c5_theorem ⟨none⟩ rfl

/-- C6: given the detector invariant that `monthly_recurring` is the sum of
the monthly-equivalent amounts (a merchant defaulting to its amount when the
monthly equivalent is absent), the displayed monthly total equals the sum of
the monthly equivalents of the displayed merchant list. -/
theorem c6_theorem (sig : SubscriptionsSignal) (h : detectorEmitsSum sig) :
    loadedTotalMonthly sig = sumMonthlyEquivalent (loadedSubscriptions sig) := by
  unfold detectorEmitsSum at h
  by_cases hl : (merchantData sig).length > 0
  · unfold loadedTotalMonthly
    rw [if_pos hl, h]
    simp only [jsOrQ]
    split_ifs with hz
    · exact hz.symm
    · rfl
  · have hsubs : loadedSubscriptions sig = [] := by
      unfold loadedSubscriptions
      rw [if_neg hl]
    unfold loadedTotalMonthly
    rw [if_neg hl, hsubs]
    simp [sumMonthlyEquivalent]

/-- C6 witness: a signal with a single Netflix merchant at 15.99, whose
monthly equivalent defaults to its amount, displays total 15.99. -/
theorem c6_witness :
    loadedTotalMonthly
      ⟨some [⟨some "Netflix", some (1599/100), none, some "monthly"⟩], none,
        some (1599/100)⟩ =
    sumMonthlyEquivalent (loadedSubscriptions
      ⟨some [⟨some "Netflix", some (1599/100), none, some "monthly"⟩], none,
        some (1599/100)⟩) :=
  c6_theorem _ (by
    unfold detectorEmitsSum loadedSubscriptions merchantData sumMonthlyEquivalent
    simp [toUISubscription, jsOrQ])

/-- C7: a candidate emitted by the guardrailed slot selection passed the
eligibility re-check and its rationale contains no entry of the
prohibited-phrase list (violating candidates are discarded in rank order;
`none` is returned when no candidate remains). -/
theorem c7_theorem (prohibited : List String) (cands : List Candidate)
    (c : Candidate) (h : selectSlot prohibited cands = some c) :
    c.eligible = true ∧
    ∀ p ∈ prohibited, substrOf p.toList c.rationale.toList = false := by
  have hp := List.find?_some h
  rw [Bool.and_eq_true, Bool.not_eq_true'] at hp
  refine ⟨hp.2, ?_⟩
  intro p hmem
  have hv := hp.1
  rw [violatesTone] at hv
  rcases hb : substrOf p.toList c.rationale.toList with _ | _
  · rfl
  · exact absurd hv (by simp [List.any_eq_true]; exact ⟨p, hmem, hb⟩)

/-- C7 witness: with prohibited phrase `shame`, the top-ranked candidate whose
rationale contains it is discarded and the next-ranked clean candidate is
emitted; its rationale contains no prohibited phrase. -/
theorem c7_witness :
    (⟨"edu-2", "a balance transfer could reduce your interest", true⟩ :
      Candidate).eligible = true ∧
    ∀ p ∈ ["shame"], substrOf p.toList
      (("a balance transfer could reduce your interest" : String)).toList = false :=
  c7_theorem ["shame"]
    [⟨"edu-1", "you should be ashamed of this spending", true⟩,
     ⟨"edu-2", "a balance transfer could reduce your interest", true⟩]
    ⟨"edu-2", "a balance transfer could reduce your interest", true⟩
    (by decide)

/-- C8: when a 30d persona assignment exists, the detected persona is computed
from it alone — the 180d record has no influence; the 180d record determines
the result only when the 30d record is absent. -/
theorem c8_theorem (pd : PersonaData) (x y : Option PersonaData) :
    detectPersona ⟨some ⟨some pd, x⟩⟩ = personaFromData pd ∧
    detectPersona ⟨some ⟨some pd, x⟩⟩ = detectPersona ⟨some ⟨some pd, y⟩⟩ ∧
    detectPersona ⟨some ⟨none, x⟩⟩ = x.bind personaFromData := by
  refine ⟨rfl, rfl, ?_⟩
  cases x <;> rfl

/-- C9: the savings-goal timeline returns months 0 and achievable when the
goal is already met; unachievable with the remaining amount when the weekly
amount is nonpositive; and otherwise the ceiling of the remaining amount over
4.33 times the weekly amount, achievable. -/
theorem c9_theorem (g cs w : ℚ) (hg : 0 < g) :
    (cs ≥ g → calculateTimelineFromWeekly (some g) cs w =
      ⟨some 0, some 0, 0, true⟩) ∧
    (cs < g → w ≤ 0 → calculateTimelineFromWeekly (some g) cs w =
      ⟨none, none, g - cs, false⟩) ∧
    (cs < g → 0 < w → calculateTimelineFromWeekly (some g) cs w =
      ⟨some ⌈(g - cs) / (w * (433/100))⌉,
       some ((⌈(g - cs) / (w * (433/100))⌉ : ℚ) / 12), g - cs, true⟩) := by
  refine ⟨?_, ?_, ?_⟩
  · intro h
    simp [calculateTimelineFromWeekly, h]
  · intro h hw
    simp [calculateTimelineFromWeekly, not_le.mpr h, hw]
  · intro h hw
    simp [calculateTimelineFromWeekly, not_le.mpr h, not_le.mpr hw]

/-- C9 witness: goal 1000, current savings 0, weekly 100 — monthly 433, so 3
months are needed and the goal is achievable. -/
theorem c9_witness :
    calculateTimelineFromWeekly (some 1000) 0 100 =
      ⟨some 3, some ((3 : ℚ) / 12), 1000, true⟩ := by
  have hceil : (⌈((1000 : ℚ) - 0) / (100 * (433/100))⌉ : ℤ) = 3 := by
    have hq : ((1000 : ℚ) - 0) / (100 * (433/100)) = 1000/433 := by norm_num
    rw [hq, Int.ceil_eq_iff]
    constructor <;> norm_num
  rw [(c9_theorem 1000 0 100 (by norm_num)).2.2 (by norm_num) (by norm_num), hceil]
  norm_num

/-- C10: toggling the same subscription index twice yields a selection with
exactly the same members as the original, and toggling a duplicate-free
selection never introduces a duplicate index. -/
theorem c10_theorem (prev : List ℕ) (i : ℕ) (h : prev.Nodup) :
    (∀ j, j ∈ toggleSubscription (toggleSubscription prev i) i ↔ j ∈ prev) ∧
    (toggleSubscription prev i).Nodup := by
  unfold toggleSubscription
  by_cases hc : i ∈ prev
  · rw [if_pos hc]
    have hnot : i ∉ prev.filter (fun j => j ≠ i) := by simp
    rw [if_neg hnot]
    constructor
    · intro j
      by_cases hj : j = i
      · subst hj
        simp [hc]
      · simp [hj, List.mem_filter]
    · exact h.filter _
  · rw [if_neg hc]
    have hin : i ∈ prev ++ [i] := by simp
    rw [if_pos hin]
    constructor
    · intro j
      by_cases hj : j = i
      · subst hj
        simp [List.mem_filter, hc]
      · simp [List.mem_filter, hj]
    · simp [List.nodup_append, h, hc]

/-- C10 witness at the selection `[0, 2]` and index 2. -/
theorem c10_witness :
    (∀ j, j ∈ toggleSubscription (toggleSubscription [0, 2] 2) 2 ↔ j ∈ [0, 2]) ∧
    (toggleSubscription [0, 2] 2).Nodup :=
  c10_theorem [0, 2] 2 (by decide)

end SpendSense
